import Mathlib

/-
Shallow embedding of src/wargame.py: the configuration object with its
validation, the shlex-style tokenizer, the Python int conversion, the
action registry with the get / set / quit actions, the dispatch loop body
Game.process_user_input, the lifecycle state machine, and the prompt
renderer. Definitions follow the source; theorems settle the frozen
claims about it.
-/

set_option autoImplicit false

namespace Wargame

/-- Characters that are awkward as Lean literals, by code point. -/
def squoteChar : Char := Char.ofNat 39

def dquoteChar : Char := Char.ofNat 34

def backslashChar : Char := Char.ofNat 92

/-- Model of the Python values the program stores in configuration fields:
the source only ever stores integers, strings, or None there. -/
inductive PyVal where
  | pint : Int → PyVal
  | pstr : String → PyVal
  | pnone : PyVal
deriving DecidableEq

def MAX_EDGE : Int := 20

def MIN_EDGE : Int := 2

def EDGE : Int := MAX_EDGE

/-- MAX_SOLDIERS is computed once, at module load, from the constant EDGE
(which equals MAX_EDGE, that is 20), so it is the fixed number 400. -/
def MAX_SOLDIERS : Int := EDGE ^ 2

def MIN_SOLDIERS : Int := 2

def SOLDIERS : Int := MIN_SOLDIERS

def PROMPT : String := "time=%t, round=%r)> "

/-- The configuration object GameConfig, fields in source property order. -/
structure GameConfig where
  edge : PyVal
  prompt : PyVal
  soldiers : PyVal
deriving DecidableEq

/-- GameConfig() built with the module-level defaults, as in main. -/
def defaultConfig : GameConfig :=
  { edge := PyVal.pint EDGE, prompt := PyVal.pstr PROMPT, soldiers := PyVal.pint SOLDIERS }

/-- GameConfig.validate from the source: the edge type check, then the
soldiers type check, then the edge range check, then the soldiers range
check, failing with the first matching message. -/
def GameConfig.validate (c : GameConfig) : Except String Unit :=
  match c.edge with
  | PyVal.pint e =>
    match c.soldiers with
    | PyVal.pint s =>
      if e < MIN_EDGE || e > MAX_EDGE then
        Except.error
          ("\"edge\" must be between " ++ toString MIN_EDGE ++ " and " ++ toString MAX_EDGE)
      else if s < MIN_SOLDIERS || s > MAX_SOLDIERS then
        Except.error
          ("\"soldiers\" must be between " ++ toString MIN_SOLDIERS ++ " and "
            ++ toString MAX_SOLDIERS)
      else Except.ok ()
    | _ => Except.error ("\"soldiers\" must be of type integer")
  | _ => Except.error ("\"edge\" must be of type integer")

/-- Python str.strip whitespace set (ASCII part). -/
def isPySpace (c : Char) : Bool :=
  c = ' ' || c = Char.ofNat 9 || c = Char.ofNat 10 || c = Char.ofNat 13
    || c = Char.ofNat 11 || c = Char.ofNat 12

/-- Python str.strip on both ends. -/
def pyStrip (s : String) : String :=
  String.mk (((s.toList.dropWhile isPySpace).reverse.dropWhile isPySpace).reverse)

/-- Digits after the first one in a Python int literal: a digit, or an
underscore that must sit between two digits. -/
def pyDigitsAux : List Char → Nat → Option Nat
  | [], acc => some acc
  | '_' :: d :: rest, acc =>
    if d.isDigit then pyDigitsAux rest (acc * 10 + (d.toNat - 48)) else none
  | ['_'], _ => none
  | c :: rest, acc =>
    if c.isDigit then pyDigitsAux rest (acc * 10 + (c.toNat - 48)) else none

/-- A nonempty digit run with optional single underscores between digits. -/
def pyNatOfDigits : List Char → Option Nat
  | [] => none
  | c :: rest => if c.isDigit then pyDigitsAux rest (c.toNat - 48) else none

/-- Python int(str) in base 10: strip whitespace, optional sign, digits with
optional underscore separators; anything else raises ValueError (none here). -/
def pyIntOfString (s : String) : Option Int :=
  match (pyStrip s).toList with
  | '+' :: rest => (pyNatOfDigits rest).map Int.ofNat
  | '-' :: rest => (pyNatOfDigits rest).map (fun n => -(Int.ofNat n))
  | l => (pyNatOfDigits l).map Int.ofNat

/-- Escape one character for the Python repr of a string (printable subset:
the program only stores ordinary printable setting strings). -/
def pyEscChar (quote : Char) (c : Char) : List Char :=
  if c = backslashChar then [backslashChar, backslashChar]
  else if c = quote then [backslashChar, quote]
  else if c = Char.ofNat 10 then [backslashChar, 'n']
  else if c = Char.ofNat 13 then [backslashChar, 'r']
  else if c = Char.ofNat 9 then [backslashChar, 't']
  else [c]

/-- Python repr of a string: single quotes, or double quotes when the text
holds a single quote and no double quote. -/
def pyReprStr (s : String) : String :=
  let q := if s.toList.contains squoteChar && !(s.toList.contains dquoteChar)
    then dquoteChar else squoteChar
  String.mk (q :: s.toList.foldr (fun c acc => pyEscChar q c ++ acc) [q])

/-- Python repr of the values a configuration field can hold. -/
def pyRepr (v : PyVal) : String :=
  match v with
  | PyVal.pint n => toString n
  | PyVal.pstr s => pyReprStr s
  | PyVal.pnone => "None"

/-- shlex word-splitting whitespace. -/
def isShlexSpace (c : Char) : Bool :=
  c = ' ' || c = Char.ofNat 9 || c = Char.ofNat 13 || c = Char.ofNat 10

/-- Scanner modes of the posix shlex tokenizer: plain text, inside single
quotes, inside double quotes, after a backslash inside double quotes, and
after a backslash in plain text. -/
inductive SMode where
  | norm | inS | inD | inDEsc | escN
deriving DecidableEq

/-- shlex.split core loop: mode, token under construction (none when no
token is open; posix quoting can open an empty token), remaining input.
Errors carry the messages shlex raises as ValueError. -/
def shlexAux : SMode → Option (List Char) → List Char → Except String (List String)
  | SMode.norm, none, [] => Except.ok []
  | SMode.norm, some tok, [] => Except.ok [String.mk tok]
  | SMode.norm, cur, c :: rest =>
    if isShlexSpace c then
      match cur with
      | none => shlexAux SMode.norm none rest
      | some tok => (shlexAux SMode.norm none rest).map (fun ts => String.mk tok :: ts)
    else if c = squoteChar then shlexAux SMode.inS (some (cur.getD [])) rest
    else if c = dquoteChar then shlexAux SMode.inD (some (cur.getD [])) rest
    else if c = backslashChar then shlexAux SMode.escN (some (cur.getD [])) rest
    else shlexAux SMode.norm (some (cur.getD [] ++ [c])) rest
  | SMode.inS, _, [] => Except.error "No closing quotation"
  | SMode.inS, cur, c :: rest =>
    if c = squoteChar then shlexAux SMode.norm cur rest
    else shlexAux SMode.inS (some (cur.getD [] ++ [c])) rest
  | SMode.inD, _, [] => Except.error "No closing quotation"
  | SMode.inD, cur, c :: rest =>
    if c = dquoteChar then shlexAux SMode.norm cur rest
    else if c = backslashChar then shlexAux SMode.inDEsc cur rest
    else shlexAux SMode.inD (some (cur.getD [] ++ [c])) rest
  | SMode.inDEsc, _, [] => Except.error "No escaped character"
  | SMode.inDEsc, cur, c :: rest =>
    shlexAux SMode.inD
      (some (cur.getD [] ++ (if c = dquoteChar || c = backslashChar then [c] else [backslashChar, c])))
      rest
  | SMode.escN, _, [] => Except.error "No escaped character"
  | SMode.escN, cur, c :: rest => shlexAux SMode.norm (some (cur.getD [] ++ [c])) rest

/-- shlex.split in posix mode, as used on the stripped input line. -/
def shlexSplit (s : String) : Except String (List String) :=
  shlexAux SMode.norm none s.toList

/-- The GameState enum of the source. -/
inductive GameState where
  | UNSTARTED | STARTING | STARTED | STOPPING | STOPPED
deriving DecidableEq

/-- The mutable state of a Game object: its owned configuration, the round
counter, and the lifecycle state. The action and prompt registries are
fixed tables in the source and appear below as fixed definitions. -/
structure Game where
  config : GameConfig
  round : Nat
  state : GameState
deriving DecidableEq

/-- The state property setter (it also logs, which is not user output). -/
def Game.setState (g : Game) (s : GameState) : Game :=
  { g with state := s }

/-- Game.__init__: round starts at 0 and the state is set to UNSTARTED. -/
def Game.new (config : GameConfig) : Game :=
  { config := config, round := 0, state := GameState.UNSTARTED }

/-- Game.start: set STARTING, run the (empty) startup hook, set STARTED. -/
def Game.start (g : Game) : Game :=
  (g.setState GameState.STARTING).setState GameState.STARTED

/-- Game.stop: set STOPPING, run the (empty) teardown hook, set STOPPED. -/
def Game.stop (g : Game) : Game :=
  (g.setState GameState.STOPPING).setState GameState.STOPPED

/-- Game.has_started: the state is STARTING or STARTED. -/
def Game.has_started (g : Game) : Bool :=
  g.state = GameState.STARTING || g.state = GameState.STARTED

/-- Game.has_stopped: the state is STOPPED. -/
def Game.has_stopped (g : Game) : Bool :=
  g.state = GameState.STOPPED

/-- The condition of the while loop in main. -/
def loopContinue (g : Game) : Bool :=
  g.has_started && !g.has_stopped

/-- Reading a named setting through the reflection loop over the GameConfig
class properties, which are edge, prompt and soldiers, matched by
case-sensitive string equality. -/
def getSettingVal (c : GameConfig) (name : String) : Option PyVal :=
  if name = "edge" then some c.edge
  else if name = "prompt" then some c.prompt
  else if name = "soldiers" then some c.soldiers
  else none

/-- Writing a named setting through the same reflection loop (only reached
for names that getSettingVal resolves). -/
def setSettingVal (c : GameConfig) (name : String) (v : PyVal) : GameConfig :=
  if name = "edge" then { c with edge := v }
  else if name = "prompt" then { c with prompt := v }
  else if name = "soldiers" then { c with soldiers := v }
  else c

/-- Python exceptions that escape the handlers of process_user_input. -/
inductive Uncaught where
  | valueErrorUnpack : Uncaught
  | valueErrorShlex : String → Uncaught
  | typeErrorArity : String → Uncaught
  | typeErrorConversion : Uncaught
deriving DecidableEq

/-- The two exception kinds that type(current)(value) can raise in
SetSetting.run: ValueError from int parsing (caught there) and TypeError
from calling NoneType (not caught there). -/
inductive ConvErr where
  | valueError | typeError
deriving DecidableEq

/-- type(getattr(config, setting))(value): convert the raw string by the
type of the current field value. -/
def convertTo (cur : PyVal) (value : String) : Except ConvErr PyVal :=
  match cur with
  | PyVal.pint _ =>
    match pyIntOfString value with
    | some n => Except.ok (PyVal.pint n)
    | none => Except.error ConvErr.valueError
  | PyVal.pstr _ => Except.ok (PyVal.pstr value)
  | PyVal.pnone => Except.error ConvErr.typeError

/-- Outcome of looking up and running one action, as seen by the try block
of process_user_input: a KeyError from the registry lookup, a
GameActionError with its message, a normal return with the new game and the
optional output string, or an exception none of the handlers catch. -/
inductive DispatchOutcome where
  | unknownAction : DispatchOutcome
  | actionError : String → DispatchOutcome
  | ok : Game → Option String → DispatchOutcome
  | uncaught : Uncaught → DispatchOutcome
deriving DecidableEq

/-- GetSetting.run with its defaulted setting argument. -/
def GetSettingRun (g : Game) (setting : Option String) : DispatchOutcome :=
  match setting with
  | none => DispatchOutcome.actionError "Missing argument: setting"
  | some s =>
    match getSettingVal g.config s with
    | some v => DispatchOutcome.ok g (some (pyRepr v))
    | none => DispatchOutcome.actionError ("Unknown setting: " ++ s)

/-- SetSetting.run with its defaulted setting and value arguments: missing
argument checks, property lookup, conversion guarded only against
ValueError, then assignment through the property setter. -/
def SetSettingRun (g : Game) (setting value : Option String) : DispatchOutcome :=
  match setting with
  | none => DispatchOutcome.actionError "Missing argument: setting"
  | some s =>
    match value with
    | none => DispatchOutcome.actionError "Missing argument: value"
    | some v =>
      match getSettingVal g.config s with
      | none => DispatchOutcome.actionError ("Unknown setting: " ++ s)
      | some cur =>
        match convertTo cur v with
        | Except.ok nv =>
          DispatchOutcome.ok { g with config := setSettingVal g.config s nv } none
        | Except.error ConvErr.valueError =>
          DispatchOutcome.actionError ("Illegal value for setting: " ++ s)
        | Except.error ConvErr.typeError =>
          DispatchOutcome.uncaught Uncaught.typeErrorConversion

/-- QuitGame.run: stop the game, return None. -/
def QuitGameRun (g : Game) : DispatchOutcome :=
  DispatchOutcome.ok g.stop none

/-- self._actions[action](self).run(*arguments): registry lookup (KeyError
when absent) and the positional-argument binding of each run method, where
surplus positional arguments raise an uncaught TypeError. -/
def dispatch (g : Game) (action : String) (args : List String) : DispatchOutcome :=
  if action = "get" then
    match args with
    | [] => GetSettingRun g none
    | [s] => GetSettingRun g (some s)
    | _ => DispatchOutcome.uncaught (Uncaught.typeErrorArity action)
  else if action = "quit" then
    match args with
    | [] => QuitGameRun g
    | _ => DispatchOutcome.uncaught (Uncaught.typeErrorArity action)
  else if action = "set" then
    match args with
    | [] => SetSettingRun g none none
    | [s] => SetSettingRun g (some s) none
    | [s, v] => SetSettingRun g (some s) (some v)
    | _ => DispatchOutcome.uncaught (Uncaught.typeErrorArity action)
  else DispatchOutcome.unknownAction

/-- Observable effect of one call to Game.process_user_input in the normal
(non-raising) case: the game afterwards, the lines written to standard
output, and the lines written to standard error. -/
structure ProcResult where
  game : Game
  stdoutLines : List String
  stderrLines : List String
deriving DecidableEq

/-- Game.process_user_input: the empty-string guard runs on the raw input,
the tokenizer on the stripped input; unpacking an empty token list raises
an uncaught ValueError; only KeyError and GameActionError are handled; a
truthy output string is printed with a newline. -/
def Game.process_user_input (g : Game) (input : String) : Except Uncaught ProcResult :=
  if input = "" then Except.ok { game := g, stdoutLines := [], stderrLines := [] }
  else
    match shlexSplit (pyStrip input) with
    | Except.error e => Except.error (Uncaught.valueErrorShlex e)
    | Except.ok [] => Except.error Uncaught.valueErrorUnpack
    | Except.ok (action :: arguments) =>
      match dispatch g action arguments with
      | DispatchOutcome.uncaught e => Except.error e
      | DispatchOutcome.unknownAction =>
        let msg := "Unknown action: " ++ action
        Except.ok { game := g, stdoutLines := [], stderrLines := ["ERROR: " ++ msg ++ "\n"] }
      | DispatchOutcome.actionError msg =>
        Except.ok { game := g, stdoutLines := [], stderrLines := ["ERROR: " ++ msg ++ "\n"] }
      | DispatchOutcome.ok g2 output =>
        Except.ok
          { game := g2
            stdoutLines :=
              match output with
              | some o => if o = "" then [] else [o ++ "\n"]
              | none => []
            stderrLines := [] }

/-- The while loop of main over a queue of input lines, stopping when the
continuation predicate fails; an uncaught exception aborts the loop. -/
def runLoop : Game → List String → Game
  | g, [] => g
  | g, input :: rest =>
    if loopContinue g then
      match g.process_user_input input with
      | Except.ok r => runLoop r.game rest
      | Except.error _ => g
    else g

/-- The prompt placeholder registry PROMPT_MAP, with the wall-clock time
provider abstracted as an input string: key t maps to the time value, key r
to str of the round counter. -/
def promptValue (timeStr : String) (roundVal : Nat) (c : Char) : Option String :=
  if c = 't' then some timeStr
  else if c = 'r' then some (Nat.repr roundVal)
  else none

/-- The left-to-right non-overlapping substitution done by re.sub with the
pattern percent-then-registered-key: an unregistered percent sequence is
kept and scanning resumes at the character after the percent sign. -/
def substAux (f : Char → Option String) : List Char → List Char
  | [] => []
  | '%' :: c :: rest =>
    match f c with
    | some v => v.toList ++ substAux f rest
    | none => '%' :: substAux f (c :: rest)
  | c :: rest => c :: substAux f rest

/-- Render one prompt template at a given time string and round value. -/
def renderTemplate (timeStr : String) (roundVal : Nat) (tmpl : String) : String :=
  String.mk (substAux (promptValue timeStr roundVal) tmpl.toList)

/-- Game.prompt: re.sub over the configured template; re.sub demands a
string template, so a non-string prompt field would raise (none here). -/
def Game.prompt (g : Game) (timeStr : String) : Option String :=
  match g.config.prompt with
  | PyVal.pstr s => some (renderTemplate timeStr g.round s)
  | _ => none

/-- The game exactly as main builds it: default configuration (validated),
then Game constructed, then start. -/
def gameStarted : Game :=
  (Game.new defaultConfig).start

/-- The typing invariant the running program maintains on its configuration:
edge and soldiers hold integers, prompt holds a string. It holds at
construction and every set action preserves it. -/
def WellTyped (c : GameConfig) : Prop :=
  (∃ n : Int, c.edge = PyVal.pint n)
    ∧ (∃ s : String, c.prompt = PyVal.pstr s)
    ∧ (∃ n : Int, c.soldiers = PyVal.pint n)

/-- Positional-argument counts each run method accepts without raising a
TypeError; an unknown verb never reaches a run method. -/
def arityOk (a : String) (n : Nat) : Bool :=
  if a = "get" then decide (n ≤ 1)
  else if a = "quit" then decide (n = 0)
  else if a = "set" then decide (n ≤ 2)
  else true

theorem shlexSplit_empty : shlexSplit "" = Except.ok [] := rfl

theorem GetSettingRun_ok_inv (g : Game) (s? : Option String) (g2 : Game)
    (out : Option String) (h : GetSettingRun g s? = DispatchOutcome.ok g2 out) :
    g2 = g := by
  cases s? with
  | none => simp [GetSettingRun] at h
  | some s =>
    cases hx : getSettingVal g.config s with
    | none => simp [GetSettingRun, hx] at h
    | some v =>
      simp only [GetSettingRun, hx, DispatchOutcome.ok.injEq] at h
      exact h.1.symm

theorem SetSettingRun_ok_inv (g : Game) (s? v? : Option String) (g2 : Game)
    (out : Option String) (h : SetSettingRun g s? v? = DispatchOutcome.ok g2 out) :
    out = none ∧ g2.round = g.round ∧ g2.state = g.state := by
  cases s? with
  | none => simp [SetSettingRun] at h
  | some s =>
    cases v? with
    | none => simp [SetSettingRun] at h
    | some v =>
      cases hx : getSettingVal g.config s with
      | none => simp [SetSettingRun, hx] at h
      | some cur =>
        cases hc : convertTo cur v with
        | ok nv =>
          simp only [SetSettingRun, hx, hc, DispatchOutcome.ok.injEq] at h
          obtain ⟨hg, ho⟩ := h
          subst hg
          exact ⟨ho.symm, rfl, rfl⟩
        | error e =>
          cases e <;> simp [SetSettingRun, hx, hc] at h

theorem QuitGameRun_ok_inv (g : Game) (g2 : Game) (out : Option String)
    (h : QuitGameRun g = DispatchOutcome.ok g2 out) : g2 = g.stop := by
  simp only [QuitGameRun, DispatchOutcome.ok.injEq] at h
  exact h.1.symm

theorem dispatch_ok_round_state (g : Game) (a : String) (args : List String)
    (g2 : Game) (out : Option String)
    (h : dispatch g a args = DispatchOutcome.ok g2 out) :
    g2.round = g.round ∧ (g2.state = g.state ∨ g2.state = GameState.STOPPED) := by
  unfold dispatch at h
  by_cases h1 : a = "get"
  · rw [if_pos h1] at h
    match args, h with
    | [], h =>
      have := GetSettingRun_ok_inv g none g2 out h
      subst this
      exact ⟨rfl, Or.inl rfl⟩
    | [s], h =>
      have := GetSettingRun_ok_inv g (some s) g2 out h
      subst this
      exact ⟨rfl, Or.inl rfl⟩
    | s1 :: s2 :: ss, h => simp at h
  · rw [if_neg h1] at h
    by_cases h2 : a = "quit"
    · rw [if_pos h2] at h
      match args, h with
      | [], h =>
        have := QuitGameRun_ok_inv g g2 out h
        subst this
        exact ⟨rfl, Or.inr rfl⟩
      | s1 :: ss, h => simp at h
    · rw [if_neg h2] at h
      by_cases h3 : a = "set"
      · rw [if_pos h3] at h
        match args, h with
        | [], h => exact ⟨(SetSettingRun_ok_inv g none none g2 out h).2.1,
            Or.inl (SetSettingRun_ok_inv g none none g2 out h).2.2⟩
        | [s], h => exact ⟨(SetSettingRun_ok_inv g (some s) none g2 out h).2.1,
            Or.inl (SetSettingRun_ok_inv g (some s) none g2 out h).2.2⟩
        | [s, v], h => exact ⟨(SetSettingRun_ok_inv g (some s) (some v) g2 out h).2.1,
            Or.inl (SetSettingRun_ok_inv g (some s) (some v) g2 out h).2.2⟩
        | s1 :: s2 :: s3 :: ss, h => simp at h
      · rw [if_neg h3] at h
        simp at h

theorem process_ok_game (g : Game) (input : String) (r : ProcResult)
    (h : g.process_user_input input = Except.ok r) :
    r.game.round = g.round ∧ (r.game.state = g.state ∨ r.game.state = GameState.STOPPED) := by
  unfold Game.process_user_input at h
  split at h
  · injection h with h
    subst h
    exact ⟨rfl, Or.inl rfl⟩
  · split at h
    · exact absurd h (by simp)
    · exact absurd h (by simp)
    · rename_i action arguments heq
      split at h
      · exact absurd h (by simp)
      · injection h with h
        subst h
        exact ⟨rfl, Or.inl rfl⟩
      · injection h with h
        subst h
        exact ⟨rfl, Or.inl rfl⟩
      · rename_i g2 output hd
        injection h with h
        subst h
        exact dispatch_ok_round_state g action arguments g2 output hd

theorem runLoop_round (g : Game) (inputs : List String) :
    (runLoop g inputs).round = g.round := by
  induction inputs generalizing g with
  | nil => rfl
  | cons i rest ih =>
    unfold runLoop
    split
    · cases hp : g.process_user_input i with
      | ok r => simpa [ih r.game] using (process_ok_game g i r hp).1
      | error e => rfl
    · rfl

/-- C1 counterexample: the claim says validation fails whenever soldiers
exceeds the square of the configured edge; with edge 2 that bound is 4,
yet validate accepts soldiers 9, because the code compares soldiers
against the module constant MAX_SOLDIERS, which is 400. -/
theorem C1_counterexample :
    GameConfig.validate
        { edge := PyVal.pint 2, prompt := PyVal.pstr "", soldiers := PyVal.pint 9 }
      = Except.ok ()
  ∧ ¬((9 : Int) ≤ 2 ^ 2) :=
  ⟨rfl, by decide⟩

/-- C1 (amended): validate succeeds exactly when edge is an integer in
the range MIN_EDGE to MAX_EDGE (2 to 20) and soldiers is an integer in
the range MIN_SOLDIERS to MAX_SOLDIERS (2 to 400, the constant square of
MAX_EDGE, independent of the configured edge); every failure carries a
nonempty human-readable message. -/
theorem C1_validate_characterization (c : GameConfig) :
    (c.validate = Except.ok () ↔
      (∃ e : Int, c.edge = PyVal.pint e ∧ MIN_EDGE ≤ e ∧ e ≤ MAX_EDGE) ∧
      (∃ s : Int, c.soldiers = PyVal.pint s ∧ MIN_SOLDIERS ≤ s ∧ s ≤ MAX_SOLDIERS))
  ∧ (∀ m : String, c.validate = Except.error m → 0 < m.length) := by
  obtain ⟨e, p, s⟩ := c
  cases e with
  | pint ev =>
    cases s with
    | pint sv =>
      constructor
      · simp only [GameConfig.validate]
        split
        · rename_i hcond
          simp only [Bool.or_eq_true, decide_eq_true_eq] at hcond
          simp only [MIN_EDGE, MAX_EDGE, MIN_SOLDIERS, MAX_SOLDIERS, EDGE] at hcond ⊢
          constructor
          · intro h
            exact absurd h (by simp)
          · rintro ⟨⟨e2, he2, hlo, hhi⟩, -⟩
            injection he2 with he2
            subst he2
            omega
        · rename_i hcond1
          split
          · rename_i hcond2
            simp only [Bool.or_eq_true, decide_eq_true_eq] at hcond2
            simp only [MIN_EDGE, MAX_EDGE, MIN_SOLDIERS, MAX_SOLDIERS, EDGE] at hcond2 ⊢
            constructor
            · intro h
              exact absurd h (by simp)
            · rintro ⟨-, ⟨s2, hs2, hlo, hhi⟩⟩
              injection hs2 with hs2
              subst hs2
              omega
          · rename_i hcond2
            simp only [Bool.or_eq_true, decide_eq_true_eq, not_or] at hcond1 hcond2
            simp only [MIN_EDGE, MAX_EDGE, MIN_SOLDIERS, MAX_SOLDIERS, EDGE] at hcond1 hcond2 ⊢
            constructor
            · intro _
              exact ⟨⟨ev, rfl, by omega, by omega⟩, ⟨sv, rfl, by omega, by omega⟩⟩
            · intro _
              trivial
      · intro m hm
        simp only [GameConfig.validate] at hm
        split at hm
        · injection hm with hm
          subst hm
          decide
        · split at hm
          · injection hm with hm
            subst hm
            decide
          · exact absurd hm (by simp)
    | pstr sv =>
      refine ⟨⟨fun h => absurd h (by simp [GameConfig.validate]), ?_⟩, ?_⟩
      · rintro ⟨-, ⟨s2, hs2, -⟩⟩
        simp at hs2
      · intro m hm
        simp only [GameConfig.validate] at hm
        injection hm with hm
        subst hm
        decide
    | pnone =>
      refine ⟨⟨fun h => absurd h (by simp [GameConfig.validate]), ?_⟩, ?_⟩
      · rintro ⟨-, ⟨s2, hs2, -⟩⟩
        simp at hs2
      · intro m hm
        simp only [GameConfig.validate] at hm
        injection hm with hm
        subst hm
        decide
  | pstr ev =>
    refine ⟨⟨fun h => absurd h (by simp [GameConfig.validate]), ?_⟩, ?_⟩
    · rintro ⟨⟨e2, he2, -⟩, -⟩
      simp at he2
    · intro m hm
      simp only [GameConfig.validate] at hm
      injection hm with hm
      subst hm
      decide
  | pnone =>
    refine ⟨⟨fun h => absurd h (by simp [GameConfig.validate]), ?_⟩, ?_⟩
    · rintro ⟨⟨e2, he2, -⟩, -⟩
      simp at he2
    · intro m hm
      simp only [GameConfig.validate] at hm
      injection hm with hm
      subst hm
      decide

theorem C1_validate_characterization_witness :
    0 < ("\"edge\" must be of type integer").length :=
  (C1_validate_characterization
      { edge := PyVal.pnone, prompt := PyVal.pnone, soldiers := PyVal.pnone }).2 _ rfl

/-- C2 counterexample: the claim says set edge 999 must fail with an
illegal-value error and leave edge unchanged; in the code the converted
value is assigned with no bounds validation, so the command succeeds
silently and stores 999, which is far above MAX_EDGE. -/
theorem C2_counterexample :
    gameStarted.process_user_input "set edge 999" =
      Except.ok
        { game :=
            { gameStarted with config := { gameStarted.config with edge := PyVal.pint 999 } }
          stdoutLines := []
          stderrLines := [] }
  ∧ ¬((999 : Int) ≤ MAX_EDGE) :=
  ⟨rfl, by decide⟩

/-- C2 (amended): for a discoverable setting, set fails with an
illegal-value error naming the setting exactly when the raw string fails
to convert to the type of the current value; when conversion succeeds the
converted value is assigned unconditionally, with no bounds validation,
and set succeeds silently with no output value. -/
theorem C2_set_converts_without_validation (g : Game) (s v : String) (cur : PyVal)
    (h : getSettingVal g.config s = some cur) :
    (convertTo cur v = Except.error ConvErr.valueError →
      SetSettingRun g (some s) (some v) =
        DispatchOutcome.actionError ("Illegal value for setting: " ++ s))
  ∧ (∀ nv : PyVal, convertTo cur v = Except.ok nv →
      SetSettingRun g (some s) (some v) =
        DispatchOutcome.ok { g with config := setSettingVal g.config s nv } none) := by
  constructor
  · intro hc
    simp only [SetSettingRun, h, hc]
  · intro nv hc
    simp only [SetSettingRun, h, hc]

theorem C2_set_converts_without_validation_witness :
    SetSettingRun gameStarted (some "edge") (some "999") =
      DispatchOutcome.ok
        { gameStarted with config := setSettingVal gameStarted.config "edge" (PyVal.pint 999) }
        none :=
  (C2_set_converts_without_validation gameStarted "edge" "999" (PyVal.pint 20) rfl).2
    (PyVal.pint 999) rfl

/-- C3: the empty-input guard tests the raw line, not the stripped one, so
the empty line is a no-op as claimed, but a whitespace-only line reaches
the tokenizer, which returns no tokens, and unpacking them raises an
uncaught ValueError that aborts the loop. This evaluates the code at the
failing input, a single space. -/
theorem C3_whitespace_line_crashes :
    gameStarted.process_user_input "" =
      Except.ok { game := gameStarted, stdoutLines := [], stderrLines := [] }
  ∧ gameStarted.process_user_input " " = Except.error Uncaught.valueErrorUnpack :=
  ⟨rfl, rfl⟩

/-- C5: when the raw value string does not parse as a Python integer and
the soldiers field currently holds an integer, the whole processed line
fails with the illegal-value error naming soldiers, printed as one ERROR
line on standard error, and the game, hence the stored soldiers value, is
unchanged. -/
theorem C5_set_soldiers_parse_failure (g : Game) (n : Int) (v : String) (input : String)
    (hn : g.config.soldiers = PyVal.pint n)
    (hv : pyIntOfString v = none)
    (ht : shlexSplit (pyStrip input) = Except.ok ["set", "soldiers", v]) :
    g.process_user_input input =
      Except.ok
        { game := g
          stdoutLines := []
          stderrLines := ["ERROR: Illegal value for setting: soldiers\n"] } := by
  have hget : getSettingVal g.config "soldiers" = some (PyVal.pint n) := by
    have : getSettingVal g.config "soldiers" = some g.config.soldiers := rfl
    rw [this, hn]
  by_cases hempty : input = ""
  · subst hempty
    have hz : shlexSplit (pyStrip "") = Except.ok [] := rfl
    rw [hz] at ht
    simp at ht
  · unfold Game.process_user_input
    rw [if_neg hempty, ht]
    have hd : dispatch g "set" ["soldiers", v] =
        DispatchOutcome.actionError ("Illegal value for setting: " ++ "soldiers") := by
      show SetSettingRun g (some "soldiers") (some v) = _
      simp only [SetSettingRun, hget, convertTo, hv]
    simp only [hd]
    try rfl

theorem GetSettingRun_not_uncaught (g : Game) (s? : Option String) (e : Uncaught) :
    GetSettingRun g s? ≠ DispatchOutcome.uncaught e := by
  cases s? with
  | none => simp [GetSettingRun]
  | some s => cases hx : getSettingVal g.config s <;> simp [GetSettingRun, hx]

theorem getSettingVal_welltyped (c : GameConfig) (hw : WellTyped c) (s : String)
    (cur : PyVal) (h : getSettingVal c s = some cur) : cur ≠ PyVal.pnone := by
  obtain ⟨⟨n1, he⟩, ⟨s1, hp⟩, ⟨n2, hs⟩⟩ := hw
  unfold getSettingVal at h
  split at h
  · injection h with h
    subst h
    rw [he]
    simp
  · split at h
    · injection h with h
      subst h
      rw [hp]
      simp
    · split at h
      · injection h with h
        subst h
        rw [hs]
        simp
      · simp at h

theorem SetSettingRun_not_uncaught (g : Game) (s? v? : Option String)
    (hw : WellTyped g.config) (e : Uncaught) :
    SetSettingRun g s? v? ≠ DispatchOutcome.uncaught e := by
  cases s? with
  | none => simp [SetSettingRun]
  | some s =>
    cases v? with
    | none => simp [SetSettingRun]
    | some v =>
      cases hx : getSettingVal g.config s with
      | none => simp [SetSettingRun, hx]
      | some cur =>
        have hne := getSettingVal_welltyped g.config hw s cur hx
        cases cur with
        | pint n =>
          cases hc : pyIntOfString v with
          | none => simp [SetSettingRun, hx, convertTo, hc]
          | some k => simp [SetSettingRun, hx, convertTo, hc]
        | pstr st => simp [SetSettingRun, hx, convertTo]
        | pnone => exact absurd rfl hne

theorem dispatch_not_uncaught (g : Game) (a : String) (args : List String)
    (hw : WellTyped g.config) (h2 : arityOk a args.length = true) (e : Uncaught) :
    dispatch g a args ≠ DispatchOutcome.uncaught e := by
  unfold dispatch
  unfold arityOk at h2
  by_cases hga : a = "get"
  · rw [if_pos hga]
    rw [if_pos hga] at h2
    simp only [decide_eq_true_eq] at h2
    match args, h2 with
    | [], _ => exact GetSettingRun_not_uncaught g none e
    | [s], _ => exact GetSettingRun_not_uncaught g (some s) e
    | s1 :: s2 :: ss, h2 => simp at h2
  · rw [if_neg hga]
    rw [if_neg hga] at h2
    by_cases hq : a = "quit"
    · rw [if_pos hq]
      rw [if_pos hq] at h2
      simp only [decide_eq_true_eq] at h2
      match args, h2 with
      | [], _ => simp [QuitGameRun]
      | s1 :: ss, h2 => simp at h2
    · rw [if_neg hq]
      rw [if_neg hq] at h2
      by_cases hs : a = "set"
      · rw [if_pos hs]
        rw [if_pos hs] at h2
        simp only [decide_eq_true_eq] at h2
        match args, h2 with
        | [], _ => exact SetSettingRun_not_uncaught g none none hw e
        | [s], _ => exact SetSettingRun_not_uncaught g (some s) none hw e
        | [s, v], _ => exact SetSettingRun_not_uncaught g (some s) (some v) hw e
        | s1 :: s2 :: s3 :: ss, h2 => simp at h2
      · rw [if_neg hs]
        simp

/-- C4 counterexample: the claim says no command input can abort the REPL
loop; the line quit extra binds a surplus positional argument, which
raises a TypeError that neither handler catches, aborting the loop. -/
theorem C4_counterexample :
    gameStarted.process_user_input "quit extra"
      = Except.error (Uncaught.typeErrorArity "quit") := rfl

/-- C4 (amended): errors of the dispatch taxonomy are isolated: for any
input line that tokenizes into a verb and an argument list the verb can
bind (and a well-typed configuration), processing never raises; it returns
normally with at most one ERROR line on standard error, and when an ERROR
line is present the game is unchanged and nothing is printed on standard
output. Inputs outside that shape (whitespace-only lines, unbalanced
quotes, surplus arguments) can still raise uncaught errors. -/
theorem C4_errors_isolated (g : Game) (input a : String) (args : List String)
    (hw : WellTyped g.config)
    (h1 : shlexSplit (pyStrip input) = Except.ok (a :: args))
    (h2 : arityOk a args.length = true) :
    ∃ r : ProcResult, g.process_user_input input = Except.ok r
      ∧ (r.stderrLines = [] ∨ ∃ m : String, r.stderrLines = ["ERROR: " ++ m ++ "\n"])
      ∧ (r.stderrLines ≠ [] → r.game = g ∧ r.stdoutLines = []) := by
  by_cases hempty : input = ""
  · subst hempty
    have hz : shlexSplit (pyStrip "") = Except.ok [] := rfl
    rw [hz] at h1
    simp at h1
  · unfold Game.process_user_input
    rw [if_neg hempty, h1]
    cases hd : dispatch g a args with
    | uncaught e => exact absurd hd (dispatch_not_uncaught g a args hw h2 e)
    | unknownAction =>
      simp only [hd]
      exact ⟨_, rfl, Or.inr ⟨"Unknown action: " ++ a, rfl⟩, fun _ => ⟨rfl, rfl⟩⟩
    | actionError m =>
      simp only [hd]
      exact ⟨_, rfl, Or.inr ⟨m, rfl⟩, fun _ => ⟨rfl, rfl⟩⟩
    | ok g2 out =>
      simp only [hd]
      exact ⟨_, rfl, Or.inl rfl, fun hne => absurd rfl hne⟩

theorem C4_errors_isolated_witness :
    ∃ r : ProcResult, gameStarted.process_user_input "foo" = Except.ok r
      ∧ (r.stderrLines = [] ∨ ∃ m : String, r.stderrLines = ["ERROR: " ++ m ++ "\n"])
      ∧ (r.stderrLines ≠ [] → r.game = gameStarted ∧ r.stdoutLines = []) :=
  C4_errors_isolated gameStarted "foo" "foo" []
    ⟨⟨20, rfl⟩, ⟨PROMPT, rfl⟩, ⟨2, rfl⟩⟩ rfl rfl

/-- C6: the discoverable setting names are exactly edge, prompt and
soldiers, by case-sensitive exact match: for each of the three, get
returns a value and set accepts one; for every other name both actions
fail with the unknown-setting error naming the argument. -/
theorem C6_settings_registry (g : Game) (hw : WellTyped g.config) (name : String) :
    ((getSettingVal g.config name).isSome = true ↔
      (name = "edge" ∨ name = "prompt" ∨ name = "soldiers"))
  ∧ ((name = "edge" ∨ name = "prompt" ∨ name = "soldiers") →
      (∃ out : String, GetSettingRun g (some name) = DispatchOutcome.ok g (some out))
      ∧ (∃ g2 : Game, SetSettingRun g (some name) (some "2") = DispatchOutcome.ok g2 none))
  ∧ (¬(name = "edge" ∨ name = "prompt" ∨ name = "soldiers") →
      GetSettingRun g (some name) = DispatchOutcome.actionError ("Unknown setting: " ++ name)
      ∧ SetSettingRun g (some name) (some "1")
          = DispatchOutcome.actionError ("Unknown setting: " ++ name)) := by
  obtain ⟨⟨ne, he⟩, ⟨sp, hp⟩, ⟨ns, hs⟩⟩ := hw
  by_cases h1 : name = "edge"
  · subst h1
    have hget : getSettingVal g.config "edge" = some (PyVal.pint ne) := by
      have hx : getSettingVal g.config "edge" = some g.config.edge := rfl
      rw [hx, he]
    have hcv : convertTo (PyVal.pint ne) "2" = Except.ok (PyVal.pint 2) := rfl
    refine ⟨by simp [getSettingVal], fun _ => ⟨⟨pyRepr g.config.edge, rfl⟩, ?_⟩,
      fun hn => absurd (Or.inl rfl) hn⟩
    refine ⟨{ g with config := setSettingVal g.config "edge" (PyVal.pint 2) }, ?_⟩
    simp only [SetSettingRun, hget, hcv]
  · by_cases h2 : name = "prompt"
    · subst h2
      have hget : getSettingVal g.config "prompt" = some (PyVal.pstr sp) := by
        have hx : getSettingVal g.config "prompt" = some g.config.prompt := rfl
        rw [hx, hp]
      have hcv : convertTo (PyVal.pstr sp) "2" = Except.ok (PyVal.pstr "2") := rfl
      refine ⟨by simp [getSettingVal], fun _ => ⟨⟨pyRepr g.config.prompt, rfl⟩, ?_⟩,
        fun hn => absurd (Or.inr (Or.inl rfl)) hn⟩
      refine ⟨{ g with config := setSettingVal g.config "prompt" (PyVal.pstr "2") }, ?_⟩
      simp only [SetSettingRun, hget, hcv]
    · by_cases h3 : name = "soldiers"
      · subst h3
        have hget : getSettingVal g.config "soldiers" = some (PyVal.pint ns) := by
          have hx : getSettingVal g.config "soldiers" = some g.config.soldiers := rfl
          rw [hx, hs]
        have hcv : convertTo (PyVal.pint ns) "2" = Except.ok (PyVal.pint 2) := rfl
        refine ⟨by simp [getSettingVal], fun _ => ⟨⟨pyRepr g.config.soldiers, rfl⟩, ?_⟩,
          fun hn => absurd (Or.inr (Or.inr rfl)) hn⟩
        refine ⟨{ g with config := setSettingVal g.config "soldiers" (PyVal.pint 2) }, ?_⟩
        simp only [SetSettingRun, hget, hcv]
      · have hnone : getSettingVal g.config name = none := by
          simp [getSettingVal, h1, h2, h3]
        refine ⟨by simp [hnone, h1, h2, h3], fun hm => absurd hm (by simp [h1, h2, h3]),
          fun _ => ⟨?_, ?_⟩⟩
        · simp [GetSettingRun, hnone]
        · simp [SetSettingRun, hnone]

theorem C6_settings_registry_witness :
    GetSettingRun gameStarted (some "bogus")
        = DispatchOutcome.actionError ("Unknown setting: " ++ "bogus")
  ∧ SetSettingRun gameStarted (some "bogus") (some "1")
        = DispatchOutcome.actionError ("Unknown setting: " ++ "bogus") :=
  (C6_settings_registry gameStarted ⟨⟨20, rfl⟩, ⟨PROMPT, rfl⟩, ⟨2, rfl⟩⟩ "bogus").2.2
    (by decide)

/-- C7: from a STARTED game, quit drives the state through STOPPING to
STOPPED, the continuation predicate of the loop is then false, and no
processed input can move a STOPPED game to any other state. -/
theorem C7_quit_state_sequence (g : Game) (h : g.state = GameState.STARTED) :
    (g.state = GameState.STARTED
      ∧ (g.setState GameState.STOPPING).state = GameState.STOPPING
      ∧ g.stop.state = GameState.STOPPED)
  ∧ loopContinue g.stop = false
  ∧ (∀ (g2 : Game) (input : String) (r : ProcResult),
      g2.state = GameState.STOPPED → g2.process_user_input input = Except.ok r →
      r.game.state = GameState.STOPPED) := by
  refine ⟨⟨h, rfl, rfl⟩, rfl, ?_⟩
  intro g2 input r h2 hp
  rcases (process_ok_game g2 input r hp).2 with hst | hst
  · rw [hst, h2]
  · exact hst

theorem C7_quit_state_sequence_witness :
    loopContinue gameStarted.stop = false :=
  (C7_quit_state_sequence gameStarted rfl).2.1

/-- C8: prompt rendering substitutes the registered placeholders, percent r
becoming the decimal round value and percent t the time provider value,
and leaves every unregistered percent sequence, such as percent z,
unchanged; with template r=%r and round 3 the rendered prompt is r=3. -/
theorem C8_prompt_rendering :
    (∀ (g : Game) (t : String), g.config.prompt = PyVal.pstr "r=%r " → g.round = 3 →
      g.prompt t = some "r=3 ")
  ∧ (∀ (t : String) (r : Nat) (s : List Char),
      substAux (promptValue t r) ('%' :: 'z' :: s)
        = '%' :: 'z' :: substAux (promptValue t r) s)
  ∧ (∀ (t : String) (r : Nat) (s : List Char),
      substAux (promptValue t r) ('%' :: 'r' :: s)
        = (Nat.repr r).toList ++ substAux (promptValue t r) s)
  ∧ (∀ (t : String) (r : Nat) (s : List Char),
      substAux (promptValue t r) ('%' :: 't' :: s)
        = t.toList ++ substAux (promptValue t r) s) := by
  refine ⟨?_, fun t r s => rfl, fun t r s => rfl, fun t r s => rfl⟩
  intro g t hp hr
  simp only [Game.prompt, hp, hr]
  rfl

theorem C8_prompt_rendering_witness :
    Game.prompt
        { config :=
            { edge := PyVal.pint 20, prompt := PyVal.pstr "r=%r ", soldiers := PyVal.pint 2 }
          round := 3
          state := GameState.STARTED } "T"
      = some "r=3 " :=
  C8_prompt_rendering.1 _ "T" rfl rfl

/-- C9: with the prompt field holding a string (as it always does in a
run), set prompt v converts by str, which returns the token verbatim and
never fails, so the action succeeds silently, assigns v unchanged, raises
no illegal-value error and applies no bounds check. -/
theorem C9_set_prompt_always_succeeds (g : Game) (v sp : String)
    (hp : g.config.prompt = PyVal.pstr sp) :
    SetSettingRun g (some "prompt") (some v) =
      DispatchOutcome.ok { g with config := { g.config with prompt := PyVal.pstr v } } none
  ∧ ∀ input : String, shlexSplit (pyStrip input) = Except.ok ["set", "prompt", v] →
      g.process_user_input input =
        Except.ok
          { game := { g with config := { g.config with prompt := PyVal.pstr v } }
            stdoutLines := []
            stderrLines := [] } := by
  have hget : getSettingVal g.config "prompt" = some (PyVal.pstr sp) := by
    have hx : getSettingVal g.config "prompt" = some g.config.prompt := rfl
    rw [hx, hp]
  have hrun : SetSettingRun g (some "prompt") (some v) =
      DispatchOutcome.ok { g with config := { g.config with prompt := PyVal.pstr v } } none := by
    simp only [SetSettingRun, hget, convertTo]
    rfl
  refine ⟨hrun, ?_⟩
  intro input ht
  by_cases hempty : input = ""
  · subst hempty
    have hz : shlexSplit (pyStrip "") = Except.ok [] := rfl
    rw [hz] at ht
    simp at ht
  · unfold Game.process_user_input
    rw [if_neg hempty, ht]
    have hd : dispatch g "set" ["prompt", v] =
        DispatchOutcome.ok { g with config := { g.config with prompt := PyVal.pstr v } } none := by
      show SetSettingRun g (some "prompt") (some v) = _
      exact hrun
    simp only [hd]

theorem C9_set_prompt_always_succeeds_witness :
    SetSettingRun gameStarted (some "prompt") (some "hello") =
      DispatchOutcome.ok
        { gameStarted with config := { gameStarted.config with prompt := PyVal.pstr "hello" } }
        none :=
  (C9_set_prompt_always_succeeds gameStarted "hello" PROMPT rfl).1

/-- C10: the round counter is 0 at construction, every successfully
processed input line preserves it, whole runs of the loop from the
startup game keep it 0, and the percent r placeholder at round 0 renders
as the digit 0. -/
theorem C10_round_constant_zero :
    (Game.new defaultConfig).round = 0
  ∧ (∀ (g : Game) (input : String) (r : ProcResult),
      g.process_user_input input = Except.ok r → r.game.round = g.round)
  ∧ (∀ inputs : List String, (runLoop gameStarted inputs).round = 0)
  ∧ (∀ (t : String) (s : List Char),
      substAux (promptValue t 0) ('%' :: 'r' :: s) = '0' :: substAux (promptValue t 0) s) := by
  refine ⟨rfl, ?_, ?_, fun t s => rfl⟩
  · intro g input r hp
    exact (process_ok_game g input r hp).1
  · intro inputs
    exact runLoop_round gameStarted inputs

theorem C10_round_constant_zero_witness :
    ({ game := gameStarted.stop, stdoutLines := [], stderrLines := [] } : ProcResult).game.round
      = gameStarted.round :=
  C10_round_constant_zero.2.1 gameStarted "quit" _ rfl

theorem C5_set_soldiers_parse_failure_witness :
    gameStarted.process_user_input "set soldiers abc" =
      Except.ok
        { game := gameStarted
          stdoutLines := []
          stderrLines := ["ERROR: Illegal value for setting: soldiers\n"] } :=
  C5_set_soldiers_parse_failure gameStarted 2 "abc" "set soldiers abc" rfl rfl rfl

end Wargame
